import Mathlib

/-!
Sling user handlers

A shallow embedding of `src/handler/user.go` (package `handler`): the
registration handler `NewUserHandler`, the login handler `LoginHandler` and
the listing handler `GetUsersHandler`, followed by theorems about them.

Conventions of the embedding.

* A Go `error` interface value is an `Option GoError`; `none` is `nil`.
* A handler is a function from the request body and the state of the world
  (database, notification log, info log) to the response and the new world.
  A run-time panic of the Go code is the response `Response.panic`.
* The collaborators that live outside `user.go` (echo's binder for
  `model.User`, `User.Validate`, bcrypt, the JWT signer, the package variable
  `hmacSecret`, gorm's `Create`/`Scan` and `Find`, `findUserByCredentials`)
  are fields of `Collaborators`; the handlers are defined for every choice of
  them.
-/

namespace Sling

/-! ## Go errors -/

/-- The fields of `pq.Error` the handler reads. -/
structure PqError where
  Code : String
  Message : String
  deriving DecidableEq, Repr

/-- The dynamic value held by a non-nil Go `error`: a `*pq.Error`, or a value
of any other concrete type (of which only its text is kept). -/
inductive GoError where
  | pq (e : PqError)
  | other (text : String)
  deriving DecidableEq, Repr

/-- A Go `error` interface value; `none` is `nil`. -/
abbrev error := Option GoError

/-- The method `Error()`; for `*pq.Error` it is `"pq: " + Message`. -/
def GoError.Error : GoError → String
  | .pq e => "pq: " ++ e.Message
  | .other text => text

/-- The type assertion `err.(*pq.Error)` in its one-result form: `some` when
the interface holds a `*pq.Error`, `none` when the assertion panics, which is
the case for a nil interface and for every other dynamic type. -/
def assertPqError : error → Option PqError
  | some (.pq e) => some e
  | some (.other _) => none
  | none => none

/-- The function `strings.Contains` on the characters of the two strings. -/
def stringsContains (s substr : String) : Bool :=
  decide (substr.toList <:+: s.toList)

/-! ## HTTP status codes (package `net/http`) -/

def StatusOK : Nat := 200
def StatusCreated : Nat := 201
def StatusBadRequest : Nat := 400
def StatusUnauthorized : Nat := 401
def StatusNotFound : Nat := 404
def StatusConflict : Nat := 409
def StatusUnprocessableEntity : Nat := 422
def StatusInternalServerError : Nat := 500

/-! ## Data model -/

/-- The fields of `model.User` that `user.go` reads or writes. `ID` is the
numeric primary key and `PasswordDigest` the bytes of the bcrypt digest. -/
structure User where
  ID : Nat
  Name : String
  Email : String
  Password : String
  PasswordDigest : List Nat
  JWTToken : String
  deriving DecidableEq, Repr

/-- Credential is a payload that captures user submitted credentials; the
JSON tags of its fields are `name` and `password`. -/
structure Credential where
  Username : String
  Password : String
  deriving DecidableEq, Repr

/-- TokenResponse is a payload that returns the JWT token back to the client
(JSON tags `id`, `name`, `email`, `jwt_token`). -/
structure TokenResponse where
  ID : String
  Name : String
  Email : String
  JWTToken : String
  deriving DecidableEq, Repr

/-- The payload handed to the broker on a successful registration. -/
structure ActionPayload where
  UserID : Nat
  deriving DecidableEq, Repr

/-- The unsigned token built by `jwt.NewWithClaims`: signing method and the
entries of the `jwt.MapClaims`. -/
structure Token where
  Method : String
  Claims : List (String × String)
  deriving DecidableEq, Repr

/-- The constructor `jwt.NewWithClaims`. -/
def NewWithClaims (method : String) (claims : List (String × String)) : Token :=
  { Method := method, Claims := claims }

/-- The name of `jwt.SigningMethodHS256`. -/
def SigningMethodHS256 : String := "HS256"

/-! ## Requests and responses -/

/-- A JSON value as the decoder of a string field sees it: a string, `null`,
or a value of any other kind (number, boolean, array, object), which comes
with the type error the binder reports when a string field is to receive it. -/
inductive JSONValue where
  | str (s : String)
  | null
  | other (err : GoError)
  deriving DecidableEq, Repr

/-- The body of a request with a JSON content type, as the binder sees it:
no body at all; the JSON value `null`; a body the binder refuses for every
struct (text that is not JSON, or a JSON value that is neither `null` nor an
object), with the error it reports; or a JSON object, with its members in
document order. -/
inductive RequestBody where
  | empty
  | null
  | refused (err : GoError)
  | object (members : List (String × JSONValue))
  deriving DecidableEq, Repr

/-- The message argument of `echo.NewHTTPError`: a string or an error value. -/
inductive Message where
  | text (s : String)
  | err (e : GoError)
  deriving DecidableEq, Repr

/-- The value a handler serialises with `ctx.JSON`. -/
inductive Payload where
  | user (u : User)
  | users (us : List User)
  | token (t : TokenResponse)
  deriving DecidableEq, Repr

/-- What a handler invocation ends with: the `*echo.HTTPError` it returns,
the JSON response it writes, or a run-time panic. -/
inductive Response where
  | httpError (code : Nat) (message : Message)
  | json (code : Nat) (payload : Payload)
  | panic
  deriving DecidableEq, Repr

/-- The HTTP status of a response; a panic carries none. -/
def Response.status : Response → Option Nat
  | .httpError code _ => some code
  | .json code _ => some code
  | .panic => none

/-- The state the handlers act on: the database behind `db`, the payloads
handed to `broker.handleCreateUser`, and the lines written by `util.LogInfo`. -/
structure World (σ : Type) where
  db : σ
  notifications : List ActionPayload
  infoLog : List String

/-- The collaborators of the handlers that are defined outside `user.go`.

* `bindUser`: `ctx.Bind(user)` for a `model.User`, the decoded user or the
  binding error;
* `Validate`: `user.Validate()`;
* `GenerateFromPassword`: `bcrypt.GenerateFromPassword([]byte(password), cost)`;
* `hmacSecret`: the package variable holding the signing key;
* `SignedString`: `token.SignedString(key)`;
* `Create`: `db.Create(user).Scan(&user)`, giving `dbc.Error`, the user as
  left by the scan, and the database afterwards;
* `Find`: `db.Find(&users)`, the users and the error of the query;
* `findUserByCredentials`: the lookup used by the login handler. -/
structure Collaborators (σ : Type) where
  bindUser : RequestBody → Except GoError User
  Validate : User → error
  GenerateFromPassword : String → Nat → List Nat × error
  hmacSecret : List Nat
  SignedString : Token → List Nat → String × error
  Create : User → σ → error × User × σ
  Find : σ → List User × error
  findUserByCredentials : σ → Credential → User × error

/-! ## Decoding a `Credential` -/

/-- Simple case folding of a rune towards a lower-case ASCII letter: the
upper-case ASCII letters, and the two other runes that fold to an ASCII
letter, the Kelvin sign (to `k`) and the long s (to `s`). -/
def foldRune (c : Char) : Char :=
  if c = Char.ofNat 0x212A then 'k'
  else if c = Char.ofNat 0x017F then 's'
  else c.toLower

/-- Whether an object key selects the struct field with the given lower-case
ASCII JSON tag: the decoder of `encoding/json` takes an exact match and
otherwise a case-insensitive one. -/
def keyMatches (tag key : String) : Bool :=
  key.toList.map foldRune == tag.toList

/-- One step of decoding an object into a `Credential`: a member whose key
selects a field sets it from a string, leaves it on `null`, and records a
type error (the first one is kept) on any other value; other members are
skipped. -/
def decodeMember (acc : Credential × error) (m : String × JSONValue) : Credential × error :=
  if keyMatches "name" m.1 then
    match m.2 with
    | .str s => ({ acc.1 with Username := s }, acc.2)
    | .null => acc
    | .other err => (acc.1, acc.2 <|> some err)
  else if keyMatches "password" m.1 then
    match m.2 with
    | .str s => ({ acc.1 with Password := s }, acc.2)
    | .null => acc
    | .other err => (acc.1, acc.2 <|> some err)
  else acc

/-- The call `ctx.Bind(c)` for `c := &Credential{}`. An empty body and the
body `null` leave the credential at its zero value and bind without error; a
refused body gives the error of the binder; the members of an object are
decoded in document order into the zero credential, and the binding fails
with the first type error met, if any. -/
def bindCredential : RequestBody → Except GoError Credential
  | .empty => .ok { Username := "", Password := "" }
  | .null => .ok { Username := "", Password := "" }
  | .refused err => .error err
  | .object members =>
    match members.foldl decodeMember (({ Username := "", Password := "" } : Credential), none) with
    | (_, some err) => .error err
    | (c, none) => .ok c

/-! ## The handlers -/

/-- Lines 74 to 95 of `NewUserHandler`: the user is handed to the store, a
store error is classified, and on success the broker is notified and the
user answered with 201. The argument `err` is the function-level variable
`err` of the handler (declared at line 53, last assigned at line 67); the
store's error is `dbc.Error`. -/
def NewUserHandler.persist {σ : Type} (env : Collaborators σ) (user : User) (err : error)
    (w : World σ) : Response × World σ :=
  match env.Create user w.db with
  | (some _, _, db) =>
    -- Handle duplicate index errors
    match assertPqError err with
    | none => (.panic, { w with db := db })
    | some pqErr =>
      if pqErr.Code = "23505" then
        let errStr := (GoError.pq pqErr).Error
        if stringsContains errStr "email" then
          (.httpError StatusBadRequest (.text "Email already in use."), { w with db := db })
        else if stringsContains errStr "name" then
          (.httpError StatusBadRequest (.text "Username already in use."), { w with db := db })
        else
          (.httpError StatusConflict (.text (GoError.pq pqErr).Error), { w with db := db })
      else
        (.httpError StatusInternalServerError (.text (GoError.pq pqErr).Error),
          { w with db := db })
  | (none, user, db) =>
    let payload : ActionPayload := { UserID := user.ID }
    (.json StatusCreated (.user user),
      { w with db := db, notifications := w.notifications ++ [payload] })

/-- NewUserHandler returns a handler that creates a new user (lines 41 to
97); the part from line 74 on is `NewUserHandler.persist`. -/
def NewUserHandler {σ : Type} (env : Collaborators σ) (body : RequestBody) (w : World σ) :
    Response × World σ :=
  match env.bindUser body with
  | .error err => (.httpError StatusInternalServerError (.err err), w)
  | .ok user =>
    match env.Validate user with
    | some err => (.httpError StatusUnprocessableEntity (.err err), w)
    | none =>
      match env.GenerateFromPassword user.Password 10 with
      | (_, some err) => (.httpError StatusInternalServerError (.err err), w)
      | (hashBytes, none) =>
        let user := { user with Password := "", PasswordDigest := hashBytes }
        -- Generate JWT Token
        let token := NewWithClaims SigningMethodHS256 [("name", user.Name), ("email", user.Email)]
        match env.SignedString token env.hmacSecret with
        | (_, some err) => (.httpError StatusInternalServerError (.text err.Error), w)
        | (tokenString, none) =>
          let err : error := none
          let user := { user with JWTToken := tokenString }
          NewUserHandler.persist env user err w

/-- Lines 107 to 118 of `LoginHandler`: the username is logged, the user is
looked up by the credential, and the lookup is answered. -/
def LoginHandler.lookup {σ : Type} (env : Collaborators σ) (c : Credential) (w : World σ) :
    Response × World σ :=
  let w := { w with infoLog := w.infoLog ++ [c.Username] }
  match env.findUserByCredentials w.db c with
  | (_, some _) => (.httpError StatusUnauthorized (.text "wrong username or password"), w)
  | (user, none) =>
    (.json StatusOK (.token
      { ID := Nat.repr user.ID, Name := user.Name, Email := user.Email,
        JWTToken := user.JWTToken }), w)

/-- LoginHandler returns a handler that logs a user in (lines 100 to 121);
the part from line 107 on is `LoginHandler.lookup`. -/
def LoginHandler {σ : Type} (env : Collaborators σ) (body : RequestBody) (w : World σ) :
    Response × World σ :=
  match bindCredential body with
  | .error err => (.httpError StatusInternalServerError (.err err), w)
  | .ok c => LoginHandler.lookup env c w

/-- GetUsersHandler returns a handler that gets all current users (lines 131
to 146). -/
def GetUsersHandler {σ : Type} (env : Collaborators σ) (w : World σ) : Response × World σ :=
  match env.Find w.db with
  | (_, some err) => (.httpError StatusNotFound (.err err), w)
  | (users, none) =>
    -- Clear token for security
    (.json StatusOK (.users (users.map fun u => { u with JWTToken := "" })), w)

/-! ## The field lookup the specification speaks of -/

/-- The strings a JSON object offers for the field with the given tag, in
document order: the values of the members whose key selects the tag and
whose value is a string. -/
def stringValues (tag : String) (members : List (String × JSONValue)) : List String :=
  members.filterMap fun m =>
    match keyMatches tag m.1, m.2 with
    | true, .str s => some s
    | _, _ => none

/-- The value of the field of a JSON object selected by a tag, as a string
field of a zero struct receives it: the last string the object offers for
the tag, and the empty string when it offers none. -/
def fieldValue (tag : String) (members : List (String × JSONValue)) : String :=
  (stringValues tag members).getLast?.getD ""

/-- The value of a field of a request body: that of the object when the body
is an object, and the empty string for a body that has no members (the empty
body and the body `null`). -/
def bodyField (tag : String) : RequestBody → String
  | .object members => fieldValue tag members
  | _ => ""

/-! ## An in-memory instance of the collaborators

A small executable instance, used to run the handlers on concrete requests:
the database is the list of stored users, names and emails are unique, and
the identifiers are assigned in order. The digest and signature functions
are stand-ins with the interface of the real ones. -/

namespace Demo

/-- The string stored under a key of the object, or the empty string. -/
def field (key : String) (members : List (String × JSONValue)) : String :=
  match members.lookup key with
  | some (.str s) => s
  | _ => ""

/-- Binding of a registration body: fields `name`, `email`, `password`. -/
def bindUser : RequestBody → Except GoError User
  | .empty =>
    .ok { ID := 0, Name := "", Email := "", Password := "", PasswordDigest := [], JWTToken := "" }
  | .null =>
    .ok { ID := 0, Name := "", Email := "", Password := "", PasswordDigest := [], JWTToken := "" }
  | .refused err => .error err
  | .object members =>
    .ok { ID := 0, Name := field "name" members, Email := field "email" members,
          Password := field "password" members, PasswordDigest := [], JWTToken := "" }

/-- Validation: the three submitted fields are required. -/
def Validate (u : User) : error :=
  if u.Name = "" then some (.other "name is required")
  else if u.Email = "" then some (.other "email is required")
  else if u.Password = "" then some (.other "password is required")
  else none

/-- Digest stand-in: the cost followed by the scrambled bytes of the password;
a password of more than 72 bytes is refused. -/
def GenerateFromPassword (password : String) (cost : Nat) : List Nat × error :=
  if 72 < password.length then ([], some (.other "bcrypt: password length exceeds 72 bytes"))
  else (cost :: password.toList.map (fun c => (c.toNat * 31 + cost) % 256), none)

/-- Signature stand-in: method, claims and a checksum of the key, joined by
dots; an empty key is refused. -/
def SignedString (token : Token) (key : List Nat) : String × error :=
  if key = [] then ("", some (.other "key is invalid"))
  else
    (token.Method ++ "." ++ String.intercalate "&" (token.Claims.map fun kv => kv.1 ++ "=" ++ kv.2)
      ++ "." ++ Nat.repr (key.sum % 256), none)

/-- Insertion with unique email and unique name; the identifier of the new
row is one more than the number of rows. -/
def Create (u : User) (db : List User) : error × User × List User :=
  if db.any (fun r => r.Email = u.Email) then
    (some (.pq { Code := "23505",
                 Message := "duplicate key value violates unique constraint users_email_key" }),
      u, db)
  else if db.any (fun r => r.Name = u.Name) then
    (some (.pq { Code := "23505",
                 Message := "duplicate key value violates unique constraint users_name_key" }),
      u, db)
  else
    let created := { u with ID := db.length + 1 }
    (none, created, db ++ [created])

/-- Listing of all rows. -/
def Find (db : List User) : List User × error := (db, none)

/-- The zero value of `model.User`. -/
def zeroUser : User :=
  { ID := 0, Name := "", Email := "", Password := "", PasswordDigest := [], JWTToken := "" }

/-- Lookup by name, then comparison of the stored digest with the digest of
the submitted password. -/
def findUserByCredentials (db : List User) (c : Credential) : User × error :=
  match db.find? (fun r => r.Name = c.Username) with
  | none => (zeroUser, some (.other "record not found"))
  | some u =>
    if u.PasswordDigest = (GenerateFromPassword c.Password 10).1 then (u, none)
    else (zeroUser, some (.other "hashedPassword is not the hash of the given password"))

/-- The in-memory collaborators. -/
def env : Collaborators (List User) :=
  { bindUser := bindUser, Validate := Validate, GenerateFromPassword := GenerateFromPassword,
    hmacSecret := [115, 108, 105, 110, 103], SignedString := SignedString, Create := Create,
    Find := Find, findUserByCredentials := findUserByCredentials }

/-- The in-memory collaborators with a database that refuses every insertion
with the PostgreSQL error 57P01 (the server is shutting down). -/
def envDown : Collaborators (List User) :=
  { env with
    Create := fun u db =>
      (some (.pq { Code := "57P01",
                   Message := "terminating connection due to administrator command" }), u, db) }

/-- A registration body with the three fields. -/
def registration (name email password : String) : RequestBody :=
  .object [("name", .str name), ("email", .str email), ("password", .str password)]

/-- A login body with the fields `name` and `password`. -/
def login (name password : String) : RequestBody :=
  .object [("name", .str name), ("password", .str password)]

/-- The user bound from a registration body with the three fields. -/
def submitted (name email password : String) : User :=
  { ID := 0, Name := name, Email := email, Password := password, PasswordDigest := [],
    JWTToken := "" }

/-- The world with an empty database and empty logs. -/
def emptyWorld : World (List User) := { db := [], notifications := [], infoLog := [] }

/-- The user alice as stored by her registration. -/
def alice : User :=
  { ID := 1, Name := "alice", Email := "a@x.com", Password := "",
    PasswordDigest := (GenerateFromPassword "secret123" 10).1,
    JWTToken := (SignedString (NewWithClaims SigningMethodHS256
      [("name", "alice"), ("email", "a@x.com")]) [115, 108, 105, 110, 103]).1 }

/-- The world after the registration of alice. -/
def aliceWorld : World (List User) :=
  { db := [alice], notifications := [{ UserID := 1 }], infoLog := [] }

end Demo

/-! ## Lemmas on the registration handler -/

section Registration

variable {σ : Type}

/-- A request that binds, validates, hashes and signs reaches the store with
the bound user whose password is cleared and whose digest and token are set;
the variable `err` is nil at that point. -/
theorem NewUserHandler_reaches_persist (env : Collaborators σ) (body : RequestBody)
    (w : World σ) (u : User) (hashBytes : List Nat) (tokenString : String)
    (hbind : env.bindUser body = .ok u) (hval : env.Validate u = none)
    (hhash : env.GenerateFromPassword u.Password 10 = (hashBytes, none))
    (hsign : env.SignedString
      (NewWithClaims SigningMethodHS256 [("name", u.Name), ("email", u.Email)])
      env.hmacSecret = (tokenString, none)) :
    NewUserHandler env body w =
      NewUserHandler.persist env
        { u with Password := "", PasswordDigest := hashBytes, JWTToken := tokenString } none w := by
  simp only [NewUserHandler, hbind, hval, hhash, hsign]

/-- With `err` nil, every error of the store ends in the panic of the type
assertion at line 77. -/
theorem persist_panics_of_create_error (env : Collaborators σ) (user : User) (w : World σ)
    (h : (env.Create user w.db).1 ≠ none) :
    (NewUserHandler.persist env user none w).1 = Response.panic := by
  unfold NewUserHandler.persist
  rcases hc : env.Create user w.db with ⟨e, u', db'⟩
  rw [hc] at h
  cases e with
  | none => exact absurd rfl h
  | some e => simp [assertPqError]

/-- With `err` nil, a successful insertion is answered with 201 and the user
left by the scan, and the broker is handed the identifier of that user. -/
theorem persist_of_create_ok (env : Collaborators σ) (user created : User) (w : World σ)
    (db' : σ) (h : env.Create user w.db = (none, created, db')) :
    NewUserHandler.persist env user none w =
      (Response.json 201 (.user created),
        { w with db := db', notifications := w.notifications ++ [{ UserID := created.ID }] }) := by
  simp [NewUserHandler.persist, h, StatusCreated]

/-- Every registration that reaches the store and is refused by it, with
whatever error, ends in a panic: the classification of lines 77 to 89 is
never reached. -/
theorem NewUserHandler_panics_of_create_error (env : Collaborators σ) (body : RequestBody)
    (w : World σ) (u : User) (hashBytes : List Nat) (tokenString : String)
    (hbind : env.bindUser body = .ok u) (hval : env.Validate u = none)
    (hhash : env.GenerateFromPassword u.Password 10 = (hashBytes, none))
    (hsign : env.SignedString
      (NewWithClaims SigningMethodHS256 [("name", u.Name), ("email", u.Email)])
      env.hmacSecret = (tokenString, none))
    (hcreate : (env.Create
      { u with Password := "", PasswordDigest := hashBytes, JWTToken := tokenString }
      w.db).1 ≠ none) :
    (NewUserHandler env body w).1 = Response.panic := by
  rw [NewUserHandler_reaches_persist env body w u hashBytes tokenString hbind hval hhash hsign]
  exact persist_panics_of_create_error env _ w hcreate

end Registration

/-! ## Login -/

section Login

variable {σ : Type}

/-- C2: any two login requests whose credential lookup returns an error get
the same response, the error 401 with the message "wrong username or
password", whatever the error of the lookup is. -/
theorem LoginHandler_failures_indistinguishable (env : Collaborators σ)
    (body₁ body₂ : RequestBody) (w₁ w₂ : World σ) (c₁ c₂ : Credential)
    (hbind₁ : bindCredential body₁ = .ok c₁) (hbind₂ : bindCredential body₂ = .ok c₂)
    (herr₁ : (env.findUserByCredentials w₁.db c₁).2 ≠ none)
    (herr₂ : (env.findUserByCredentials w₂.db c₂).2 ≠ none) :
    (LoginHandler env body₁ w₁).1 = (LoginHandler env body₂ w₂).1 ∧
    (LoginHandler env body₁ w₁).1 =
      Response.httpError 401 (.text "wrong username or password") := by
  have key : ∀ (body : RequestBody) (w : World σ) (c : Credential),
      bindCredential body = .ok c → (env.findUserByCredentials w.db c).2 ≠ none →
      (LoginHandler env body w).1 =
        Response.httpError 401 (.text "wrong username or password") := by
    intro body w c hb he
    rcases hf : env.findUserByCredentials w.db c with ⟨u, e⟩
    rw [hf] at he
    cases e with
    | none => exact absurd rfl he
    | some e => simp [LoginHandler, LoginHandler.lookup, hb, hf, StatusUnauthorized]
  exact ⟨(key body₁ w₁ c₁ hbind₁ herr₁).trans (key body₂ w₂ c₂ hbind₂ herr₂).symm,
    key body₁ w₁ c₁ hbind₁ herr₁⟩

/-- C5: a login whose credential lookup returns the user `u` is answered with
200 and the token response made of the decimal rendering of `u.ID`, `u.Name`,
`u.Email` and the token stored on `u`; the signer is not consulted, and the
database and the notification log are left as they were. -/
theorem LoginHandler_success (env : Collaborators σ) (body : RequestBody) (w : World σ)
    (c : Credential) (u : User)
    (hbind : bindCredential body = .ok c)
    (hfind : env.findUserByCredentials w.db c = (u, none)) :
    (LoginHandler env body w).1 =
      Response.json 200 (.token
        { ID := (Nat.toDigits 10 u.ID).asString, Name := u.Name, Email := u.Email,
          JWTToken := u.JWTToken }) ∧
    (∀ sign : Token → List Nat → String × error,
      LoginHandler { env with SignedString := sign } body w = LoginHandler env body w) ∧
    (LoginHandler env body w).2.db = w.db ∧
    (LoginHandler env body w).2.notifications = w.notifications := by
  refine ⟨?_, ?_, ?_, ?_⟩
  · simp [LoginHandler, LoginHandler.lookup, hbind, hfind, StatusOK, Nat.repr]
  · intro sign
    rfl
  · simp [LoginHandler, LoginHandler.lookup, hbind, hfind]
  · simp [LoginHandler, LoginHandler.lookup, hbind, hfind]

end Login

/-! ## Listing -/

section Listing

variable {σ : Type}

/-- C3: when the store returns the users without error, the listing is
answered with 200 and a list that has one element for each stored user, in
order, equal to it in every field but the token, which is empty on every
element. -/
theorem GetUsersHandler_clears_tokens (env : Collaborators σ) (w : World σ)
    (users : List User) (hfind : env.Find w.db = (users, none)) :
    ∃ out : List User,
      (GetUsersHandler env w).1 = Response.json 200 (.users out) ∧
      (∀ u ∈ out, u.JWTToken = "") ∧
      out.length = users.length ∧
      out = users.map (fun u => { u with JWTToken := "" }) := by
  refine ⟨users.map (fun u => { u with JWTToken := "" }), ?_, ?_, ?_, rfl⟩
  · simp [GetUsersHandler, hfind, StatusOK]
  · intro u hu
    rcases List.mem_map.mp hu with ⟨v, _, rfl⟩
    rfl
  · simp

end Listing

/-! ## Registration -/

section RegistrationClaims

variable {σ : Type}

/-- C4: for a registration that passes validation, hashing and signing, the
user handed to the store's Create has an empty password and the digest
returned by the hasher for the submitted password, and the database after
the request is the one Create leaves for that user; when Create succeeds the
response is 201 with the user left by the scan; and, for a store whose scan
does not fill the password of a user stored with an empty one, every 201
response of the handler carries a user with an empty password. -/
theorem NewUserHandler_password_never_stored (env : Collaborators σ) (body : RequestBody)
    (w : World σ) (u : User) (hashBytes : List Nat) (tokenString : String)
    (hbind : env.bindUser body = .ok u) (hval : env.Validate u = none)
    (hhash : env.GenerateFromPassword u.Password 10 = (hashBytes, none))
    (hsign : env.SignedString
      (NewWithClaims SigningMethodHS256 [("name", u.Name), ("email", u.Email)])
      env.hmacSecret = (tokenString, none)) :
    ∃ stored : User,
      NewUserHandler env body w = NewUserHandler.persist env stored none w ∧
      stored.Password = "" ∧
      stored.PasswordDigest = (env.GenerateFromPassword u.Password 10).1 ∧
      (NewUserHandler env body w).2.db = (env.Create stored w.db).2.2 ∧
      ((env.Create stored w.db).1 = none →
        (NewUserHandler env body w).1 =
          Response.json 201 (.user (env.Create stored w.db).2.1)) ∧
      ((∀ (given : User) (db : σ),
          given.Password = "" → (env.Create given db).2.1.Password = "") →
        ∀ payload, (NewUserHandler env body w).1 = Response.json 201 payload →
          ∃ created : User, payload = .user created ∧ created.Password = "") := by
  have hdb : ∀ stored : User,
      (NewUserHandler.persist env stored none w).2.db = (env.Create stored w.db).2.2 := by
    intro stored
    unfold NewUserHandler.persist
    rcases env.Create stored w.db with ⟨e, created, db'⟩
    cases e <;> simp [assertPqError]
  have hok : ∀ stored : User, (env.Create stored w.db).1 = none →
      (NewUserHandler.persist env stored none w).1 =
        Response.json 201 (.user (env.Create stored w.db).2.1) := by
    intro stored hnone
    rcases hc : env.Create stored w.db with ⟨e, created, db'⟩
    rw [hc] at hnone
    cases hnone
    rw [persist_of_create_ok env stored created w db' hc]
  have hresp : ∀ stored : User, stored.Password = "" →
      (∀ (given : User) (db : σ),
        given.Password = "" → (env.Create given db).2.1.Password = "") →
      ∀ payload,
      (NewUserHandler.persist env stored none w).1 = Response.json 201 payload →
      ∃ created : User, payload = .user created ∧ created.Password = "" := by
    intro stored hempty hscan payload hp
    have hs := hscan stored w.db hempty
    cases hc : (env.Create stored w.db).1 with
    | some e =>
      have hne : (env.Create stored w.db).1 ≠ none := by rw [hc]; simp
      rw [persist_panics_of_create_error env stored w hne] at hp
      cases hp
    | none =>
      rw [hok stored hc] at hp
      injection hp with _ hp
      exact ⟨_, hp.symm, hs⟩
  refine ⟨{ u with Password := "", PasswordDigest := hashBytes, JWTToken := tokenString },
    NewUserHandler_reaches_persist env body w u hashBytes tokenString hbind hval hhash hsign,
    rfl, by rw [hhash], ?_, ?_, ?_⟩
  all_goals
    rw [NewUserHandler_reaches_persist env body w u hashBytes tokenString hbind hval hhash hsign]
  · exact hdb _
  · exact hok _
  · exact hresp _ rfl

/-- C6, as amended: a registration whose validation fails with the error `e`
is answered with the HTTP error 422 (Unprocessable Entity) carrying `e`, and
the world is left as it was. -/
theorem NewUserHandler_validation_failure (env : Collaborators σ) (body : RequestBody)
    (w : World σ) (u : User) (e : GoError)
    (hbind : env.bindUser body = .ok u) (hval : env.Validate u = some e) :
    NewUserHandler env body w = (Response.httpError 422 (.err e), w) ∧
    (NewUserHandler env body w).1.status = some 422 := by
  have h : NewUserHandler env body w = (Response.httpError 422 (.err e), w) := by
    simp [NewUserHandler, hbind, hval, StatusUnprocessableEntity]
  exact ⟨h, by rw [h]; rfl⟩

/-- C9: for one signing secret, two registrations that pass validation and
hashing and whose users have the same name and the same email reach the
store with the same token, the signature under HS256 and the secret of the
claims `name` and `email` and no other claim; password, digest and the
worlds may differ. -/
theorem NewUserHandler_token_deterministic (env : Collaborators σ)
    (body₁ body₂ : RequestBody) (w₁ w₂ : World σ) (u₁ u₂ : User)
    (hash₁ hash₂ : List Nat) (tokenString : String)
    (hbind₁ : env.bindUser body₁ = .ok u₁) (hbind₂ : env.bindUser body₂ = .ok u₂)
    (hval₁ : env.Validate u₁ = none) (hval₂ : env.Validate u₂ = none)
    (hhash₁ : env.GenerateFromPassword u₁.Password 10 = (hash₁, none))
    (hhash₂ : env.GenerateFromPassword u₂.Password 10 = (hash₂, none))
    (hname : u₁.Name = u₂.Name) (hemail : u₁.Email = u₂.Email)
    (hsign : env.SignedString
      { Method := "HS256", Claims := [("name", u₁.Name), ("email", u₁.Email)] }
      env.hmacSecret = (tokenString, none)) :
    ∃ stored₁ stored₂ : User,
      NewUserHandler env body₁ w₁ = NewUserHandler.persist env stored₁ none w₁ ∧
      NewUserHandler env body₂ w₂ = NewUserHandler.persist env stored₂ none w₂ ∧
      stored₁.JWTToken = stored₂.JWTToken ∧
      stored₁.JWTToken =
        (env.SignedString
          { Method := "HS256", Claims := [("name", u₁.Name), ("email", u₁.Email)] }
          env.hmacSecret).1 := by
  have hsign₂ : env.SignedString
      (NewWithClaims SigningMethodHS256 [("name", u₂.Name), ("email", u₂.Email)])
      env.hmacSecret = (tokenString, none) := by
    rw [← hname, ← hemail]
    exact hsign
  refine ⟨{ u₁ with Password := "", PasswordDigest := hash₁, JWTToken := tokenString },
    { u₂ with Password := "", PasswordDigest := hash₂, JWTToken := tokenString },
    NewUserHandler_reaches_persist env body₁ w₁ u₁ hash₁ tokenString hbind₁ hval₁ hhash₁ hsign,
    NewUserHandler_reaches_persist env body₂ w₂ u₂ hash₂ tokenString hbind₂ hval₂ hhash₂ hsign₂,
    rfl, ?_⟩
  rw [hsign]

/-- C10: a registration that fails at decoding, validation, hashing or
signing leaves the world as it was (database, notification log and info
log), and its outcome is the same whatever the store's Create is: Create is
not invoked. -/
theorem NewUserHandler_failure_no_effect (env : Collaborators σ) (body : RequestBody)
    (w : World σ)
    (hfail : (∃ e, env.bindUser body = .error e) ∨
      (∃ u, env.bindUser body = .ok u ∧
        (env.Validate u ≠ none ∨
         (env.GenerateFromPassword u.Password 10).2 ≠ none ∨
         (env.SignedString
            (NewWithClaims SigningMethodHS256 [("name", u.Name), ("email", u.Email)])
            env.hmacSecret).2 ≠ none))) :
    (NewUserHandler env body w).2 = w ∧
    (NewUserHandler env body w).1 ≠ Response.panic ∧
    ∀ create : User → σ → error × User × σ,
      NewUserHandler { env with Create := create } body w = NewUserHandler env body w := by
  rcases hfail with ⟨e, hb⟩ | ⟨u, hb, hrest⟩
  · simp [NewUserHandler, hb]
  · cases hv : env.Validate u with
    | some e => simp [NewUserHandler, hb, hv]
    | none =>
      rcases hh : env.GenerateFromPassword u.Password 10 with ⟨hashBytes, eh⟩
      cases eh with
      | some e => simp [NewUserHandler, hb, hv, hh]
      | none =>
        rcases hs : env.SignedString
          (NewWithClaims SigningMethodHS256 [("name", u.Name), ("email", u.Email)])
          env.hmacSecret with ⟨tokenString, es⟩
        cases es with
        | some e => simp [NewUserHandler, hb, hv, hh, hs]
        | none =>
          rw [hv, hh, hs] at hrest
          simp at hrest

end RegistrationClaims

/-! ## Decoding of the login body -/

section Decoding

/-- A key that selects the tag `name` does not select the tag `password`. -/
theorem keyMatches_name_not_password (key : String) (h : keyMatches "name" key = true) :
    keyMatches "password" key = false := by
  simp only [keyMatches, beq_iff_eq] at h
  simp only [keyMatches, h, beq_eq_false_iff_ne]
  decide

/-- The last element of a list with a default, when an element is put in
front. -/
theorem getLast?_getD_cons (s a : String) (l : List String) :
    (s :: l).getLast?.getD a = l.getLast?.getD s := by
  cases l with
  | nil => simp
  | cons b l =>
    rw [List.getLast?_cons_cons]
    cases hl : (b :: l).getLast? with
    | none => simp at hl
    | some x => rfl

/-- The fold that decodes the members leaves in each field the last string
the object offers for its tag, or the initial value of the field. -/
theorem foldl_decodeMember (members : List (String × JSONValue)) (acc : Credential × error) :
    (members.foldl decodeMember acc).1.Username =
      (stringValues "name" members).getLast?.getD acc.1.Username ∧
    (members.foldl decodeMember acc).1.Password =
      (stringValues "password" members).getLast?.getD acc.1.Password := by
  induction members generalizing acc with
  | nil => simp [stringValues]
  | cons m rest ih =>
    obtain ⟨key, value⟩ := m
    rw [List.foldl_cons]
    obtain ⟨ihu, ihp⟩ := ih (decodeMember acc (key, value))
    rw [ihu, ihp]
    by_cases hn : keyMatches "name" key = true
    · have hp := keyMatches_name_not_password key hn
      cases value <;>
        simp [decodeMember, stringValues, List.filterMap_cons, hn, hp, getLast?_getD_cons]
    · have hn' : keyMatches "name" key = false := by simpa using hn
      by_cases hp : keyMatches "password" key = true
      · cases value <;>
          simp [decodeMember, stringValues, List.filterMap_cons, hn', hp, getLast?_getD_cons]
      · have hp' : keyMatches "password" key = false := by simpa using hp
        cases value <;>
          simp [decodeMember, stringValues, List.filterMap_cons, hn', hp']

/-- A successful binding of an object gives the credential made of the
values of its fields `name` and `password`. -/
theorem bindCredential_object (members : List (String × JSONValue)) (c : Credential)
    (h : bindCredential (.object members) = .ok c) :
    c = { Username := fieldValue "name" members, Password := fieldValue "password" members } := by
  have hf := foldl_decodeMember members (({ Username := "", Password := "" } : Credential), none)
  rcases hfold : members.foldl decodeMember
    (({ Username := "", Password := "" } : Credential), none) with ⟨c', e⟩
  rw [hfold] at hf
  simp only [bindCredential, hfold] at h
  cases e with
  | some e => simp at h
  | none =>
    simp only [Except.ok.injEq] at h
    subst h
    obtain ⟨hu, hp⟩ := hf
    cases c'
    simp only at hu hp
    simp [fieldValue, hu, hp]

/-- A successful binding of any body gives the credential made of the values
of the fields `name` and `password` of the body. -/
theorem bindCredential_ok (body : RequestBody) (c : Credential)
    (h : bindCredential body = .ok c) :
    c = { Username := bodyField "name" body, Password := bodyField "password" body } := by
  cases body with
  | empty =>
    simp only [bindCredential, Except.ok.injEq] at h
    rw [← h]
    rfl
  | null =>
    simp only [bindCredential, Except.ok.injEq] at h
    rw [← h]
    rfl
  | refused err => simp [bindCredential] at h
  | object members => exact bindCredential_object members c h

/-- An object none of whose members offers a string for a tag has no string
values for it. -/
theorem stringValues_of_no_string (tag : String) (members : List (String × JSONValue))
    (h : ∀ m ∈ members, keyMatches tag m.1 = true → ∀ s, m.2 ≠ .str s) :
    stringValues tag members = [] := by
  unfold stringValues
  rw [List.filterMap_eq_nil_iff]
  intro m hm
  obtain ⟨key, value⟩ := m
  cases hk : keyMatches tag key with
  | false => rfl
  | true =>
    cases value with
    | str s => exact absurd rfl (h (key, .str s) hm hk s)
    | null => rfl
    | other err => rfl

/-- An object that offers no string for a tag has the empty string as the
value of the field. -/
theorem fieldValue_of_no_string (tag : String) (members : List (String × JSONValue))
    (h : ∀ m ∈ members, keyMatches tag m.1 = true → ∀ s, m.2 ≠ .str s) :
    fieldValue tag members = "" := by
  simp [fieldValue, stringValues_of_no_string tag members h]

/-- The value of a field is the string of the last member that offers one for
the tag: a member whose key selects the tag and whose value is the string
`v`, followed only by members that offer no string for the tag, gives `v`. -/
theorem fieldValue_of_last_string (tag key v : String)
    (front back : List (String × JSONValue))
    (hkey : keyMatches tag key = true)
    (hback : ∀ m ∈ back, keyMatches tag m.1 = true → ∀ s, m.2 ≠ .str s) :
    fieldValue tag (front ++ (key, .str v) :: back) = v := by
  have hnil := stringValues_of_no_string tag back hback
  have hcons : stringValues tag ((key, .str v) :: back) = [v] := by
    have hstep : stringValues tag ((key, .str v) :: back) = v :: stringValues tag back := by
      simp [stringValues, List.filterMap_cons, hkey]
    rw [hstep, hnil]
  have happ : stringValues tag (front ++ (key, .str v) :: back) =
      stringValues tag front ++ stringValues tag ((key, .str v) :: back) := by
    unfold stringValues
    rw [List.filterMap_append]
  simp [fieldValue, happ, hcons]

end Decoding

/-! ## The fields read by the login handler -/

section LoginBody

variable {σ : Type}

/-- C8, as amended: for every JSON body that binds, the credential looked up
by the login handler has as username the value of the field `name` of the
body and as password the value of its field `password`, the fields being
read as `encoding/json` reads them: a key selects a field when it equals the
tag up to letter case, the last member that selects the field and holds a
string gives the value, and the value is the empty string when no member
does, which is the case of the empty body and of the body `null`. -/
theorem LoginHandler_reads_name_and_password (env : Collaborators σ)
    (body : RequestBody) (w : World σ) (c : Credential)
    (hbind : bindCredential body = .ok c) :
    LoginHandler env body w =
      LoginHandler.lookup env
        { Username := bodyField "name" body, Password := bodyField "password" body } w ∧
    c.Username = bodyField "name" body ∧
    c.Password = bodyField "password" body ∧
    (∀ (front back : List (String × JSONValue)) (key v : String),
      body = .object (front ++ (key, .str v) :: back) →
      keyMatches "name" key = true →
      (∀ m ∈ back, keyMatches "name" m.1 = true → ∀ s, m.2 ≠ .str s) →
      c.Username = v) ∧
    (∀ (front back : List (String × JSONValue)) (key v : String),
      body = .object (front ++ (key, .str v) :: back) →
      keyMatches "password" key = true →
      (∀ m ∈ back, keyMatches "password" m.1 = true → ∀ s, m.2 ≠ .str s) →
      c.Password = v) ∧
    ((∀ members, body = .object members →
        ∀ m ∈ members, keyMatches "name" m.1 = true → ∀ s, m.2 ≠ .str s) →
      c.Username = "") ∧
    ((∀ members, body = .object members →
        ∀ m ∈ members, keyMatches "password" m.1 = true → ∀ s, m.2 ≠ .str s) →
      c.Password = "") := by
  have hc := bindCredential_ok body c hbind
  have hu : c.Username = bodyField "name" body := by rw [hc]
  have hp : c.Password = bodyField "password" body := by rw [hc]
  refine ⟨?_, hu, hp, ?_, ?_, ?_, ?_⟩
  · simp only [LoginHandler, hbind]
    rw [hc]
  · intro front back key v hbody hkey hback
    rw [hu, hbody]
    exact fieldValue_of_last_string "name" key v front back hkey hback
  · intro front back key v hbody hkey hback
    rw [hp, hbody]
    exact fieldValue_of_last_string "password" key v front back hkey hback
  · intro hnone
    rw [hu]
    cases body with
    | object members => exact fieldValue_of_no_string "name" members (hnone members rfl)
    | empty => rfl
    | null => rfl
    | refused err => rfl
  · intro hnone
    rw [hp]
    cases body with
    | object members => exact fieldValue_of_no_string "password" members (hnone members rfl)
    | empty => rfl
    | null => rfl
    | refused err => rfl

/-- C8, counterexample: the claim with the field `username` is false. For the
body with the members `username` = alice and `password` = secret123, sent
when alice is registered with that password, the handler looks up the empty
username and answers 401, while the lookup of the value of the field
`username` is answered with 200. -/
theorem LoginHandler_ignores_username_field :
    ¬ ∀ (env : Collaborators (List User)) (members : List (String × JSONValue))
        (w : World (List User)) (c : Credential),
        bindCredential (.object members) = .ok c →
        LoginHandler env (.object members) w =
          LoginHandler.lookup env
            { Username := fieldValue "username" members,
              Password := fieldValue "password" members } w := by
  intro h
  have h1 := congrArg Prod.fst
    (h Demo.env [("username", .str "alice"), ("password", .str "secret123")] Demo.aliceWorld
      { Username := "", Password := "secret123" } rfl)
  revert h1
  decide

end LoginBody

/-! ## The status of a failed validation -/

/-- C6, counterexample: the claim with the status 400 is false. The
registration with an empty name fails validation and is answered with the
status 422. -/
theorem NewUserHandler_validation_failure_not_400 :
    ¬ ∀ (env : Collaborators (List User)) (body : RequestBody) (w : World (List User))
        (u : User) (e : GoError),
        env.bindUser body = .ok u → env.Validate u = some e →
        (NewUserHandler env body w).1.status = some 400 := by
  intro h
  have h1 := h Demo.env (Demo.registration "" "a@x.com" "secret123") Demo.emptyWorld
    { ID := 0, Name := "", Email := "a@x.com", Password := "secret123", PasswordDigest := [],
      JWTToken := "" }
    (.other "name is required") rfl rfl
  revert h1
  decide

/-! ## Store errors -/

/-- C1, the code at the failing input: alice is registered, and a second
registration with the name alice and another email passes validation,
hashing and signing; the store refuses it with the error 23505 on the name
constraint, and the handler ends in a panic, not in the error 400 "Username
already in use.". -/
theorem NewUserHandler_name_conflict_panics :
    (∃ stored : User,
      NewUserHandler Demo.env (Demo.registration "alice" "b@x.com" "secret123") Demo.aliceWorld =
        NewUserHandler.persist Demo.env stored none Demo.aliceWorld ∧
      (Demo.env.Create stored Demo.aliceWorld.db).1 =
        some (.pq { Code := "23505",
                    Message := "duplicate key value violates unique constraint users_name_key" })) ∧
    (NewUserHandler Demo.env (Demo.registration "alice" "b@x.com" "secret123")
      Demo.aliceWorld).1 = Response.panic ∧
    (NewUserHandler Demo.env (Demo.registration "alice" "b@x.com" "secret123")
      Demo.aliceWorld).1 ≠ Response.httpError 400 (.text "Username already in use.") := by
  refine ⟨⟨_, NewUserHandler_reaches_persist Demo.env _ Demo.aliceWorld
    { ID := 0, Name := "alice", Email := "b@x.com", Password := "secret123",
      PasswordDigest := [], JWTToken := "" }
    (Demo.GenerateFromPassword "secret123" 10).1
    "HS256.name=alice&email=b@x.com.29" rfl rfl rfl (by decide), by decide⟩, by decide, by decide⟩

/-- C7, the code at the failing input: a registration that passes validation,
hashing and signing while the database refuses insertions with the error
57P01, which is not a uniqueness violation, ends in a panic, not in the
error 500. -/
theorem NewUserHandler_store_failure_panics :
    (∃ stored : User,
      NewUserHandler Demo.envDown (Demo.registration "bob" "b@x.com" "secret123")
          Demo.aliceWorld =
        NewUserHandler.persist Demo.envDown stored none Demo.aliceWorld ∧
      (Demo.envDown.Create stored Demo.aliceWorld.db).1 =
        some (.pq { Code := "57P01",
                    Message := "terminating connection due to administrator command" })) ∧
    (NewUserHandler Demo.envDown (Demo.registration "bob" "b@x.com" "secret123")
      Demo.aliceWorld).1 = Response.panic ∧
    (NewUserHandler Demo.envDown (Demo.registration "bob" "b@x.com" "secret123")
      Demo.aliceWorld).1.status ≠ some 500 := by
  refine ⟨⟨_, NewUserHandler_reaches_persist Demo.envDown _ Demo.aliceWorld
    { ID := 0, Name := "bob", Email := "b@x.com", Password := "secret123",
      PasswordDigest := [], JWTToken := "" }
    (Demo.GenerateFromPassword "secret123" 10).1
    "HS256.name=bob&email=b@x.com.29" rfl rfl rfl (by decide), rfl⟩, by decide, by decide⟩

/-! ## The theorems at concrete requests -/

section Instances

/-- The in-memory store returns an empty password for a user stored with an
empty password. -/
theorem Demo.Create_password (stored : User) (db : List User) (h : stored.Password = "") :
    (Demo.env.Create stored db).2.1.Password = "" := by
  simp only [Demo.env, Demo.Create]
  split_ifs <;> simp [h]

/-- The registration of alice on the empty database is answered with 201 and
the stored alice, whose password is empty. -/
theorem Demo.registration_alice :
    NewUserHandler Demo.env (Demo.registration "alice" "a@x.com" "secret123") Demo.emptyWorld =
      (Response.json 201 (.user Demo.alice), Demo.aliceWorld) ∧
    Demo.alice.Password = "" := by
  constructor
  · rw [NewUserHandler_reaches_persist Demo.env
      (Demo.registration "alice" "a@x.com" "secret123") Demo.emptyWorld
      (Demo.submitted "alice" "a@x.com" "secret123")
      (Demo.GenerateFromPassword "secret123" 10).1 "HS256.name=alice&email=a@x.com.29"
      rfl rfl rfl (by decide)]
    rfl
  · rfl

/-- C2 at a concrete pair: with alice registered, the login of the unknown
user bob and the login of alice with a wrong password get the same response. -/
theorem LoginHandler_failures_indistinguishable_witness :
    (Demo.env.findUserByCredentials Demo.aliceWorld.db
      { Username := "bob", Password := "secret123" }).2 = some (.other "record not found") ∧
    (Demo.env.findUserByCredentials Demo.aliceWorld.db
      { Username := "alice", Password := "wrong" }).2 =
        some (.other "hashedPassword is not the hash of the given password") ∧
    (LoginHandler Demo.env (Demo.login "bob" "secret123") Demo.aliceWorld).1 =
      (LoginHandler Demo.env (Demo.login "alice" "wrong") Demo.aliceWorld).1 ∧
    (LoginHandler Demo.env (Demo.login "bob" "secret123") Demo.aliceWorld).1 =
      Response.httpError 401 (.text "wrong username or password") :=
  ⟨by decide, by decide,
    LoginHandler_failures_indistinguishable Demo.env (Demo.login "bob" "secret123")
      (Demo.login "alice" "wrong") Demo.aliceWorld Demo.aliceWorld
      { Username := "bob", Password := "secret123" } { Username := "alice", Password := "wrong" }
      rfl rfl (by decide) (by decide)⟩

/-- C5 at a concrete login: alice logs in with her password and gets the
token stored at her registration. -/
theorem LoginHandler_success_witness :
    Demo.env.findUserByCredentials Demo.aliceWorld.db
      { Username := "alice", Password := "secret123" } = (Demo.alice, none) ∧
    (LoginHandler Demo.env (Demo.login "alice" "secret123") Demo.aliceWorld).1 =
      Response.json 200 (.token
        { ID := "1", Name := "alice", Email := "a@x.com",
          JWTToken := "HS256.name=alice&email=a@x.com.29" }) :=
  ⟨by decide,
    (LoginHandler_success Demo.env (Demo.login "alice" "secret123") Demo.aliceWorld
      { Username := "alice", Password := "secret123" } Demo.alice rfl (by decide)).1⟩

/-- C3 at a concrete store: the stored alice holds a token, the listed alice
holds none. -/
theorem GetUsersHandler_clears_tokens_witness :
    Demo.alice.JWTToken ≠ "" ∧
    ∃ out : List User,
      (GetUsersHandler Demo.env Demo.aliceWorld).1 = Response.json 200 (.users out) ∧
      (∀ u ∈ out, u.JWTToken = "") ∧
      out.length = [Demo.alice].length ∧
      out = [Demo.alice].map (fun u => { u with JWTToken := "" }) :=
  ⟨by decide, GetUsersHandler_clears_tokens Demo.env Demo.aliceWorld [Demo.alice] rfl⟩

/-- C4 at a concrete registration: alice registers with the password
secret123 on the empty database; the stored user and the user of the 201
response have an empty password. -/
theorem NewUserHandler_password_never_stored_witness :
    ∃ stored : User,
      NewUserHandler Demo.env (Demo.registration "alice" "a@x.com" "secret123") Demo.emptyWorld =
        NewUserHandler.persist Demo.env stored none Demo.emptyWorld ∧
      stored.Password = "" ∧
      stored.PasswordDigest = (Demo.env.GenerateFromPassword "secret123" 10).1 ∧
      (NewUserHandler Demo.env (Demo.registration "alice" "a@x.com" "secret123")
        Demo.emptyWorld).2.db = (Demo.env.Create stored Demo.emptyWorld.db).2.2 ∧
      ((Demo.env.Create stored Demo.emptyWorld.db).1 = none →
        (NewUserHandler Demo.env (Demo.registration "alice" "a@x.com" "secret123")
          Demo.emptyWorld).1 =
          Response.json 201 (.user (Demo.env.Create stored Demo.emptyWorld.db).2.1)) ∧
      ((∀ (given : User) (db : List User),
          given.Password = "" → (Demo.env.Create given db).2.1.Password = "") →
        ∀ payload,
          (NewUserHandler Demo.env (Demo.registration "alice" "a@x.com" "secret123")
            Demo.emptyWorld).1 = Response.json 201 payload →
          ∃ created : User, payload = .user created ∧ created.Password = "") :=
  NewUserHandler_password_never_stored Demo.env
    (Demo.registration "alice" "a@x.com" "secret123") Demo.emptyWorld
    (Demo.submitted "alice" "a@x.com" "secret123")
    (Demo.GenerateFromPassword "secret123" 10).1 "HS256.name=alice&email=a@x.com.29"
    rfl rfl rfl (by decide)

/-- C6, as amended, at a concrete registration: the empty name is refused
with 422. -/
theorem NewUserHandler_validation_failure_witness :
    Demo.env.Validate (Demo.submitted "" "a@x.com" "secret123") =
      some (.other "name is required") ∧
    NewUserHandler Demo.env (Demo.registration "" "a@x.com" "secret123") Demo.emptyWorld =
      (Response.httpError 422 (.err (.other "name is required")), Demo.emptyWorld) ∧
    (NewUserHandler Demo.env (Demo.registration "" "a@x.com" "secret123")
      Demo.emptyWorld).1.status = some 422 :=
  ⟨rfl, NewUserHandler_validation_failure Demo.env
    (Demo.registration "" "a@x.com" "secret123") Demo.emptyWorld
    (Demo.submitted "" "a@x.com" "secret123") (.other "name is required") rfl rfl⟩

/-- C8, as amended, at concrete bodies. In the first body the member
`username` is skipped and, of the members `name` and `NAME`, the later one
gives the username mallory; the body `null` binds and is looked up with the
empty username and the empty password, which alice's world answers with 401. -/
theorem LoginHandler_reads_name_and_password_witness :
    LoginHandler Demo.env
      (.object [("username", .str "bob"), ("name", .str "alice"), ("NAME", .str "mallory"),
        ("password", .str "secret123")])
      Demo.aliceWorld =
      LoginHandler.lookup Demo.env { Username := "mallory", Password := "secret123" }
        Demo.aliceWorld ∧
    (LoginHandler Demo.env .null Demo.aliceWorld).1 =
      Response.httpError 401 (.text "wrong username or password") :=
  ⟨(LoginHandler_reads_name_and_password Demo.env
      (.object [("username", .str "bob"), ("name", .str "alice"), ("NAME", .str "mallory"),
        ("password", .str "secret123")])
      Demo.aliceWorld { Username := "mallory", Password := "secret123" } rfl).1,
    ((LoginHandler_reads_name_and_password Demo.env .null Demo.aliceWorld
      { Username := "", Password := "" } rfl).1).symm ▸ by decide⟩

/-- C9 at a concrete pair: two registrations of alice with different
passwords reach the store with the same token. -/
theorem NewUserHandler_token_deterministic_witness :
    ∃ stored₁ stored₂ : User,
      NewUserHandler Demo.env (Demo.registration "alice" "a@x.com" "secret123") Demo.emptyWorld =
        NewUserHandler.persist Demo.env stored₁ none Demo.emptyWorld ∧
      NewUserHandler Demo.env (Demo.registration "alice" "a@x.com" "hunter2") Demo.aliceWorld =
        NewUserHandler.persist Demo.env stored₂ none Demo.aliceWorld ∧
      stored₁.JWTToken = stored₂.JWTToken ∧
      stored₁.JWTToken =
        (Demo.env.SignedString
          { Method := "HS256", Claims := [("name", "alice"), ("email", "a@x.com")] }
          Demo.env.hmacSecret).1 :=
  NewUserHandler_token_deterministic Demo.env
    (Demo.registration "alice" "a@x.com" "secret123")
    (Demo.registration "alice" "a@x.com" "hunter2") Demo.emptyWorld Demo.aliceWorld
    (Demo.submitted "alice" "a@x.com" "secret123") (Demo.submitted "alice" "a@x.com" "hunter2")
    (Demo.GenerateFromPassword "secret123" 10).1 (Demo.GenerateFromPassword "hunter2" 10).1
    "HS256.name=alice&email=a@x.com.29" rfl rfl rfl rfl rfl rfl rfl rfl (by decide)

/-- C10 at a concrete registration: a registration whose signing fails, the
key being empty, leaves the world with alice as it was. -/
theorem NewUserHandler_failure_no_effect_witness :
    (NewUserHandler { Demo.env with hmacSecret := [] }
      (Demo.registration "bob" "b@x.com" "secret123") Demo.aliceWorld).2 = Demo.aliceWorld ∧
    (NewUserHandler { Demo.env with hmacSecret := [] }
      (Demo.registration "bob" "b@x.com" "secret123") Demo.aliceWorld).1 ≠ Response.panic ∧
    ∀ create : User → List User → error × User × List User,
      NewUserHandler { { Demo.env with hmacSecret := [] } with Create := create }
        (Demo.registration "bob" "b@x.com" "secret123") Demo.aliceWorld =
      NewUserHandler { Demo.env with hmacSecret := [] }
        (Demo.registration "bob" "b@x.com" "secret123") Demo.aliceWorld :=
  NewUserHandler_failure_no_effect { Demo.env with hmacSecret := [] }
    (Demo.registration "bob" "b@x.com" "secret123") Demo.aliceWorld
    (Or.inr ⟨Demo.submitted "bob" "b@x.com" "secret123", rfl,
      Or.inr (Or.inr (by decide))⟩)

end Instances

end Sling
